import Mathlib

/-!
Shallow embedding of the glosos voice-agent repository (src/agent.py) and
verification of the specification's claims about it.

The embedding models the pieces of `agent.py` that carry control flow and
failure handling:

* module-level constants (lines 19-29);
* `_read_pyproject` (lines 32-44), with the filesystem state of the manifest
  abstracted as a `ManifestState` and a raised `tomllib` parse error modelled
  as `Except.error` carrying the exception class name;
* `_run_command` (lines 47-63), with the subprocess outcome abstracted as a
  `GitOutcome`;
* `_build_project_context` (lines 66-91);
* the `execute_python` tool body (lines 120-147), with the subprocess outcome
  abstracted as a `ToolOutcome`;
* the noise-cancellation selection lambda (line 177);
* the `my_agent` entry point (lines 151-184), whose sequential `await`s are
  modelled as an ordered list of completed events together with an optional
  raised-exception message.

Python's `or` on strings and the truthiness test on `os.getenv` results are
modelled explicitly (`pyOrStr`, `getenvTruthy`): the empty string is falsy
and an undefined variable yields `None`, which is also falsy.
-/

namespace Glosos

/-- Constant from src/agent.py line 19. -/
def STT_MODEL : String := "assemblyai/universal-streaming"

/-- Constant from src/agent.py line 20. -/
def LLM_MODEL : String := "gemini-3-flash-preview"

/-- Constant from src/agent.py line 21. -/
def TTS_MODEL : String := "inworld/inworld-tts-1.5-max"

/-- Constant from src/agent.py lines 22-27: the mandatory configuration keys. -/
def REQUIRED_ENV_KEYS : List String :=
  ["LIVEKIT_URL", "LIVEKIT_API_KEY", "LIVEKIT_API_SECRET", "GOOGLE_API_KEY"]

/-- Constant from src/agent.py line 28: tool output character budget. -/
def MAX_TOOL_OUTPUT_CHARS : Nat := 4000

/-- Constant from src/agent.py line 29: tool subprocess timeout in seconds. -/
def PYTHON_TOOL_TIMEOUT_SECONDS : Nat := 10

/-- Python `a or b` on strings: the empty string is falsy. -/
def pyOrStr (a b : String) : String := if a = "" then b else a

/-- The ASCII whitespace characters `str.strip()` removes. -/
def pyIsSpace (c : Char) : Bool :=
  c = ' ' || c = '\t' || c = '\n' || c = '\r' || c = '\x0b' || c = '\x0c'

/-- Python `s.strip()`: drop leading and trailing whitespace. -/
def pyStrip (s : String) : String :=
  String.mk (((s.data.dropWhile pyIsSpace).reverse.dropWhile pyIsSpace).reverse)

/-- Python `s[:n]`: the first `n` characters of `s` (all of `s` when it is
shorter). -/
def pyTake (s : String) (n : Nat) : String :=
  String.mk (s.data.take n)

/-- The process environment: a map from variable names to optionally-defined
values (`os.getenv` returns `None` for an undefined variable). -/
def Env : Type := String → Option String

/-- Python truthiness of `os.getenv(key)`: false for an undefined variable and
for a variable bound to the empty string (src/agent.py lines 72 and 153 both
branch on this truthiness). -/
def getenvTruthy (env : Env) (key : String) : Bool :=
  match env key with
  | none => false
  | some v => v != ""

/-- The optional `[project]` table of a parsed `pyproject.toml`; each field the
code reads may be absent (`dict.get` with a default). -/
structure ProjectTable where
  name : Option String
  version : Option String
  requiresPython : Option String
  dependencies : Option (List String)
deriving DecidableEq

/-- Filesystem state of the project manifest: absent, present but not
parseable by `tomllib.load`, or present and parsed (with an optional
`[project]` table). -/
inductive ManifestState where
  | absent
  | malformed
  | parsed (project : Option ProjectTable)
deriving DecidableEq

/-- Embeds `_read_pyproject` (src/agent.py lines 32-44).  A malformed manifest
makes `tomllib.load` raise `tomllib.TOMLDecodeError`, which the function does
not catch; the raised exception is modelled as `Except.error` carrying the
exception class name.  The result tuple is (name, version, requires-python,
dependency count). -/
def read_pyproject (m : ManifestState) : Except String (String × String × String × Nat) :=
  match m with
  | ManifestState.absent => Except.ok ("unknown", "unknown", "unknown", 0)
  | ManifestState.malformed => Except.error "TOMLDecodeError"
  | ManifestState.parsed project =>
      let p := project.getD ⟨none, none, none, none⟩
      Except.ok (p.name.getD "unknown", p.version.getD "unknown",
                 p.requiresPython.getD "unknown", (p.dependencies.getD []).length)

/-- Outcome of the `subprocess.run` call inside `_run_command`: the process
completed (with a return code, stdout and stderr), the launch raised an
`OSError` (class name and detail), or the call raised
`subprocess.TimeoutExpired`. -/
inductive GitOutcome where
  | completed (returncode : Int) (stdout stderr : String)
  | oserror (clsName detail : String)
  | timeout

/-- Embeds `_run_command` (src/agent.py lines 47-63): `OSError` maps to
`(127, "<class>: <detail>")`, a timeout maps to `(124, "timed out")`, and a
completed process maps to its return code paired with
`(stdout or stderr).strip()`. -/
def run_command : GitOutcome → Int × String
  | GitOutcome.completed rc stdout stderr => (rc, pyStrip (pyOrStr stdout stderr))
  | GitOutcome.oserror clsName detail => (127, clsName ++ ": " ++ detail)
  | GitOutcome.timeout => (124, "timed out")

/-- Embeds the working-tree classification in `_build_project_context`
(src/agent.py lines 74-77): `unknown` unless the status command exits zero,
in which case `clean` when its output is empty and `dirty` otherwise. -/
def git_state (g : GitOutcome) : String :=
  if (run_command g).1 = 0 then
    if (run_command g).2 = "" then "clean" else "dirty"
  else "unknown"

/-- The state `_build_project_context` and `my_agent` observe: the manifest,
existence of the other key files, the process environment, the outcome of the
`git status --short` invocation, and the resolved root path. -/
structure World where
  manifest : ManifestState
  otherFiles : String → Bool
  env : Env
  git : GitOutcome
  root : String

/-- Whether the manifest file exists (`pyproject.toml` exists exactly when the
manifest state is not `absent`). -/
def manifest_present : ManifestState → Bool
  | ManifestState.absent => false
  | _ => true

/-- The fixed key-file list of src/agent.py line 68. -/
def key_files : List String :=
  ["README.md", "agent.py", "pyproject.toml", "uv.lock", ".env.example"]

/-- `(root / file_name).exists()` for the key files: `pyproject.toml`
existence is tied to the manifest state, the rest to the world's file map. -/
def file_exists (w : World) (name : String) : Bool :=
  if name = "pyproject.toml" then manifest_present w.manifest else w.otherFiles name

/-- Embeds the env-status list comprehension of src/agent.py line 72: one
entry per mandatory key, `key=set` when `os.getenv(key)` is truthy and
`key=missing` otherwise.  The looked-up value itself never reaches the
output. -/
def env_status (env : Env) : List String :=
  REQUIRED_ENV_KEYS.map
    (fun key => key ++ "=" ++ (if getenvTruthy env key then "set" else "missing"))

/-- The report lines assembled by `_build_project_context`
(src/agent.py lines 79-90), given the metadata tuple read from the
manifest. -/
def context_lines (w : World) (meta : String × String × String × Nat) : List String :=
  let existing_files := key_files.filter (fun n => file_exists w n)
  let missing_files := key_files.filter (fun n => !file_exists w n)
  ["Project context for your own source code:",
   "- root: " ++ w.root,
   "- project: " ++ meta.1 ++ " " ++ meta.2.1,
   "- requires-python: " ++ meta.2.2.1,
   "- dependencies-in-pyproject: " ++ toString meta.2.2.2,
   "- models: stt=" ++ STT_MODEL ++ ", llm=" ++ LLM_MODEL ++ ", tts=" ++ TTS_MODEL,
   "- key-files-present: " ++
     (if existing_files.isEmpty then "none" else String.intercalate ", " existing_files),
   "- key-files-missing: " ++
     (if missing_files.isEmpty then "none" else String.intercalate ", " missing_files),
   "- env-status: " ++ String.intercalate ", " (env_status w.env),
   "- git-working-tree: " ++ git_state w.git]

/-- Embeds `_build_project_context` (src/agent.py lines 66-91).  The function
catches nothing, so the parse error raised by `_read_pyproject` on a malformed
manifest propagates; on the non-raising paths the joined report is
returned. -/
def build_project_context (w : World) : Except String String :=
  (read_pyproject w.manifest).map (fun meta => String.intercalate "\n" (context_lines w meta))

/-- Outcome of the `subprocess.run` call inside the `execute_python` tool:
completed, `subprocess.TimeoutExpired`, or any other exception (class name and
detail). -/
inductive ToolOutcome where
  | completed (returncode : Int) (stdout stderr : String)
  | timedOut
  | execError (clsName detail : String)

/-- The combined tool result of src/agent.py line 144:
`exit_code=<n>` then the trimmed stdout (or `<empty>`) then the trimmed
stderr (or `<empty>`), with the literal `stdout:` / `stderr:` labels. -/
def assembleToolResult (returncode : Int) (stdout stderr : String) : String :=
  "exit_code=" ++ toString returncode ++
    "\nstdout:\n" ++ pyOrStr (pyStrip stdout) "<empty>" ++
    "\nstderr:\n" ++ pyOrStr (pyStrip stderr) "<empty>"

/-- Embeds the body of the `execute_python` tool (src/agent.py lines 135-147):
timeout and launch/runtime failures become fixed textual results, and a
completed process's combined result is truncated to the character budget with
a trailing marker exactly when it exceeds that budget. -/
def execute_python (o : ToolOutcome) : String :=
  match o with
  | ToolOutcome.timedOut =>
      "timed out after " ++ toString PYTHON_TOOL_TIMEOUT_SECONDS ++ "s"
  | ToolOutcome.execError clsName detail =>
      "execution error: " ++ clsName ++ ": " ++ detail
  | ToolOutcome.completed rc stdout stderr =>
      if (assembleToolResult rc stdout stderr).length > MAX_TOOL_OUTPUT_CHARS then
        pyTake (assembleToolResult rc stdout stderr) MAX_TOOL_OUTPUT_CHARS ++ "\n...<truncated>"
      else assembleToolResult rc stdout stderr

/-- The participant kinds of the transport layer (`rtc.ParticipantKind`). -/
inductive ParticipantKind where
  | standard
  | ingress
  | egress
  | sip
  | agentParticipant
deriving DecidableEq

/-- The participant descriptor: only its transport-kind tag is read. -/
structure Participant where
  kind : ParticipantKind

/-- The argument handed to the noise-cancellation selection lambda. -/
structure NoiseCancellationParams where
  participant : Participant

/-- The two noise-cancellation strategies the code can construct. -/
inductive NoiseCancellationStrategy where
  | bvcTelephony
  | bvc
deriving DecidableEq

/-- Embeds the selection lambda of src/agent.py line 177:
`BVCTelephony()` exactly when the participant kind is the SIP (telephony)
kind, `BVC()` otherwise. -/
def select_noise_cancellation (params : NoiseCancellationParams) : NoiseCancellationStrategy :=
  if params.participant.kind = ParticipantKind.sip then NoiseCancellationStrategy.bvcTelephony
  else NoiseCancellationStrategy.bvc

/-- The observable milestones of one run of `my_agent`, in program order. -/
inductive Event where
  | contextBuilt
  | providersConstructed
  | sessionStarted
  | greetingSent
deriving DecidableEq

/-- The event sequence of a successful `my_agent` run: context built
(line 156), pipeline providers constructed (lines 157-170), session started
(lines 172-180), greeting generated (lines 182-184). -/
def successTrace : List Event :=
  [Event.contextBuilt, Event.providersConstructed, Event.sessionStarted, Event.greetingSent]

/-- Embeds `my_agent` (src/agent.py lines 151-184) as the list of completed
milestones paired with the raised-exception message, if any.  The guard on
line 153 raises when `os.getenv("GOOGLE_API_KEY")` is falsy, before anything
else runs; a parse error raised out of `_build_project_context` also aborts
the run before any provider is constructed. -/
def my_agent (w : World) : List Event × Option String :=
  if getenvTruthy w.env "GOOGLE_API_KEY" then
    match build_project_context w with
    | Except.error e => ([], some e)
    | Except.ok _ => (successTrace, none)
  else
    ([], some "GOOGLE_API_KEY is required for the Google Gemini LLM.")

deriving instance DecidableEq for Except

/-- Whether `tomllib.load` can parse the manifest (it raises exactly on the
`malformed` state). -/
def manifest_parseable : ManifestState → Bool
  | ManifestState.malformed => false
  | _ => true

/-- `env_status` as a function of the four presence bits alone. -/
def env_status_of_bits (b1 b2 b3 b4 : Bool) : List String :=
  ["LIVEKIT_URL" ++ "=" ++ (if b1 then "set" else "missing"),
   "LIVEKIT_API_KEY" ++ "=" ++ (if b2 then "set" else "missing"),
   "LIVEKIT_API_SECRET" ++ "=" ++ (if b3 then "set" else "missing"),
   "GOOGLE_API_KEY" ++ "=" ++ (if b4 then "set" else "missing")]

/-- A healthy deployment: no manifest, every mandatory key bound to a
non-empty value, clean working tree. -/
def wGood : World :=
  ⟨ManifestState.absent, fun _ => false, fun _ => some "configured",
   GitOutcome.completed 0 "" "", "/app"⟩

/-- A deployment where `LIVEKIT_URL` is undefined but `GOOGLE_API_KEY` is
set. -/
def wNoUrl : World :=
  ⟨ManifestState.absent, fun _ => false,
   fun k => if k = "LIVEKIT_URL" then none else some "configured",
   GitOutcome.timeout, "/app"⟩

/-- A deployment where `GOOGLE_API_KEY` is undefined. -/
def wNoKey : World :=
  ⟨ManifestState.absent, fun _ => false,
   fun k => if k = "GOOGLE_API_KEY" then none else some "configured",
   GitOutcome.timeout, "/app"⟩

/-- A deployment whose `pyproject.toml` exists but cannot be parsed. -/
def wMalformed : World :=
  ⟨ManifestState.malformed, fun _ => false, fun _ => some "configured",
   GitOutcome.timeout, "/app"⟩

/-- A deployment where every mandatory key is bound to the empty string. -/
def wEmpty : World :=
  ⟨ManifestState.absent, fun _ => false, fun _ => some "",
   GitOutcome.timeout, "/app"⟩

/-- Environment where only `GOOGLE_API_KEY` is defined (with some secret
value). -/
def envA : Env := fun k => if k = "GOOGLE_API_KEY" then some "secret-token-value" else none

/-- Environment agreeing with `envA` on presence of every mandatory key but
not on any literal value (`LIVEKIT_URL` is defined yet empty, hence falsy). -/
def envB : Env :=
  fun k => if k = "GOOGLE_API_KEY" then some "b"
           else if k = "LIVEKIT_URL" then some "" else none

/-- A 4000-character stdout payload used to exercise the truncation branch. -/
def bigOut : String := String.mk (List.replicate 4000 'a')

/-- Stripping leaves a run of `a` characters untouched. -/
theorem dropWhile_replicate_char (n : Nat) :
    (List.replicate n 'a').dropWhile pyIsSpace = List.replicate n 'a' := by
  cases n with
  | zero => rfl
  | succ m => rw [List.replicate_succ, List.dropWhile_cons, if_neg (by decide)]

/-- `pyStrip` is the identity on a run of `a` characters. -/
theorem pyStrip_replicate_char (n : Nat) :
    pyStrip (String.mk (List.replicate n 'a')) = String.mk (List.replicate n 'a') := by
  unfold pyStrip
  rw [show (String.mk (List.replicate n 'a')).data = List.replicate n 'a' from rfl,
      dropWhile_replicate_char, List.reverse_replicate, dropWhile_replicate_char,
      List.reverse_replicate]

theorem bigOut_ne_empty : bigOut ≠ "" := by
  intro h
  have h2 : bigOut.length = 0 := by rw [h]; rfl
  have h3 : bigOut.length = 4000 := List.length_replicate 4000 'a'
  omega

/-- The tool result assembled around `bigOut` exceeds the character budget. -/
theorem assemble_bigOut_over_budget :
    MAX_TOOL_OUTPUT_CHARS < (assembleToolResult 0 bigOut "").length := by
  have hs : pyStrip bigOut = bigOut := pyStrip_replicate_char 4000
  have hor : pyOrStr (pyStrip bigOut) "<empty>" = bigOut := by
    rw [hs]; unfold pyOrStr; rw [if_neg bigOut_ne_empty]
  have hb : bigOut.length = 4000 := List.length_replicate 4000 'a'
  unfold assembleToolResult
  rw [hor]
  simp only [String.length_append, hb]
  decide

/-- C1 counterexample: with `LIVEKIT_URL` undefined but `GOOGLE_API_KEY` set,
`my_agent` does not fail fast — the session is constructed, the pipeline
providers are built and the greeting is sent. -/
theorem my_agent_proceeds_without_livekit_url :
    getenvTruthy wNoUrl.env "LIVEKIT_URL" = false ∧
    my_agent wNoUrl = (successTrace, none) ∧
    Event.providersConstructed ∈ (my_agent wNoUrl).1 := by decide

/-- C1 (amended): session construction fails fast exactly on the missing
language-model credential: whenever `os.getenv("GOOGLE_API_KEY")` is falsy,
`my_agent` aborts with the fatal message and no milestone completes — in
particular no pipeline provider is constructed.  The other mandatory keys are
never checked by the orchestrator. -/
theorem my_agent_fail_fast_without_google_key (w : World)
    (h : getenvTruthy w.env "GOOGLE_API_KEY" = false) :
    my_agent w = ([], some "GOOGLE_API_KEY is required for the Google Gemini LLM.") ∧
    Event.providersConstructed ∉ (my_agent w).1 := by
  have hm : my_agent w = ([], some "GOOGLE_API_KEY is required for the Google Gemini LLM.") := by
    unfold my_agent
    rw [h]
    rfl
  refine ⟨hm, ?_⟩
  rw [hm]
  simp

theorem my_agent_fail_fast_without_google_key_witness :
    getenvTruthy wNoKey.env "GOOGLE_API_KEY" = false ∧
    my_agent wNoKey = ([], some "GOOGLE_API_KEY is required for the Google Gemini LLM.") ∧
    Event.providersConstructed ∉ (my_agent wNoKey).1 :=
  ⟨by decide,
   (my_agent_fail_fast_without_google_key wNoKey (by decide)).1,
   (my_agent_fail_fast_without_google_key wNoKey (by decide)).2⟩

/-- C2 counterexample: a present-but-malformed manifest makes the Project
Context Builder raise the TOML parse error past its boundary, and the session
does not proceed. -/
theorem build_project_context_raises_on_malformed :
    build_project_context wMalformed = Except.error "TOMLDecodeError" ∧
    my_agent wMalformed = ([], some "TOMLDecodeError") := by decide

/-- C2 (amended): the Project Context Builder returns a text report exactly
when the manifest is absent or parseable; a malformed manifest raises the
parse error past its boundary instead of collapsing to a sentinel. -/
theorem build_project_context_ok_iff_parseable (w : World) :
    (build_project_context w).isOk = manifest_parseable w.manifest := by
  obtain ⟨m, f, e, g, r⟩ := w
  cases m <;> rfl

/-- C3 counterexample: with the manifest absent, the manifest-reading step
returns `0` for the dependency count, not the `"unknown"` sentinel, and the
rendered report line says `0`. -/
theorem read_pyproject_absent_count_not_unknown :
    read_pyproject ManifestState.absent = Except.ok ("unknown", "unknown", "unknown", 0) ∧
    "- dependencies-in-pyproject: 0" ∈ context_lines wGood ("unknown", "unknown", "unknown", 0) ∧
    "- dependencies-in-pyproject: unknown" ∉ context_lines wGood ("unknown", "unknown", "unknown", 0) := by
  decide

/-- C3 (amended): with the manifest absent, the manifest-reading step returns
exactly four metadata fields; the three string fields (name, version,
minimum-runtime constraint) equal the `"unknown"` sentinel and the dependency
count defaults to `0`. -/
theorem read_pyproject_absent_sentinels (w : World)
    (h : w.manifest = ManifestState.absent) :
    read_pyproject w.manifest = Except.ok ("unknown", "unknown", "unknown", 0) := by
  rw [h]
  rfl

theorem read_pyproject_absent_sentinels_witness :
    wGood.manifest = ManifestState.absent ∧
    read_pyproject wGood.manifest = Except.ok ("unknown", "unknown", "unknown", 0) :=
  ⟨rfl, read_pyproject_absent_sentinels wGood rfl⟩
/-- C4: the assembled tool result is truncated exactly when its character
length exceeds the 4000-character budget: over budget, the returned text is
the first 4000 characters followed by the truncation marker; at or under
budget it is returned unchanged with no marker appended. -/
theorem execute_python_truncates_iff_over_budget (rc : Int) (stdout stderr : String) :
    ((assembleToolResult rc stdout stderr).length ≤ MAX_TOOL_OUTPUT_CHARS →
       execute_python (ToolOutcome.completed rc stdout stderr) =
         assembleToolResult rc stdout stderr) ∧
    (MAX_TOOL_OUTPUT_CHARS < (assembleToolResult rc stdout stderr).length →
       execute_python (ToolOutcome.completed rc stdout stderr) =
         pyTake (assembleToolResult rc stdout stderr) MAX_TOOL_OUTPUT_CHARS ++ "\n...<truncated>") := by
  constructor
  · intro h
    show (if (assembleToolResult rc stdout stderr).length > MAX_TOOL_OUTPUT_CHARS then
            pyTake (assembleToolResult rc stdout stderr) MAX_TOOL_OUTPUT_CHARS ++ "\n...<truncated>"
          else assembleToolResult rc stdout stderr) = assembleToolResult rc stdout stderr
    rw [if_neg (by omega)]
  · intro h
    show (if (assembleToolResult rc stdout stderr).length > MAX_TOOL_OUTPUT_CHARS then
            pyTake (assembleToolResult rc stdout stderr) MAX_TOOL_OUTPUT_CHARS ++ "\n...<truncated>"
          else assembleToolResult rc stdout stderr) =
         pyTake (assembleToolResult rc stdout stderr) MAX_TOOL_OUTPUT_CHARS ++ "\n...<truncated>"
    rw [if_pos (by omega)]

theorem execute_python_truncates_iff_over_budget_witness :
    execute_python (ToolOutcome.completed 0 "" "") = assembleToolResult 0 "" "" ∧
    execute_python (ToolOutcome.completed 0 bigOut "") =
      pyTake (assembleToolResult 0 bigOut "") MAX_TOOL_OUTPUT_CHARS ++ "\n...<truncated>" :=
  ⟨(execute_python_truncates_iff_over_budget 0 "" "").1 (by decide),
   (execute_python_truncates_iff_over_budget 0 bigOut "").2 assemble_bigOut_over_budget⟩

/-- C5: for a completed tool subprocess under the output budget, the result
text is `exit_code=<n>` followed by the trimmed stdout (or the `<empty>`
marker) and the trimmed stderr (or the `<empty>` marker); in particular a
snippet exiting 0 with no output yields the empty-marker for both streams. -/
theorem execute_python_success_assembly (rc : Int) (stdout stderr : String)
    (h : (assembleToolResult rc stdout stderr).length ≤ MAX_TOOL_OUTPUT_CHARS) :
    execute_python (ToolOutcome.completed rc stdout stderr) =
      "exit_code=" ++ toString rc ++ "\nstdout:\n" ++
        (if pyStrip stdout = "" then "<empty>" else pyStrip stdout) ++ "\nstderr:\n" ++
        (if pyStrip stderr = "" then "<empty>" else pyStrip stderr) := by
  show (if (assembleToolResult rc stdout stderr).length > MAX_TOOL_OUTPUT_CHARS then
          pyTake (assembleToolResult rc stdout stderr) MAX_TOOL_OUTPUT_CHARS ++ "\n...<truncated>"
        else assembleToolResult rc stdout stderr) = _
  rw [if_neg (by omega)]
  rfl

theorem execute_python_success_assembly_witness :
    execute_python (ToolOutcome.completed 0 "" "") =
      "exit_code=0\nstdout:\n<empty>\nstderr:\n<empty>" := by
  rw [execute_python_success_assembly 0 "" "" (by decide)]
  decide

/-- C6: the working-tree state is always one of `clean`, `dirty`, `unknown`;
it is `clean` exactly when the status command completed with exit status zero
and empty (stripped) output, `dirty` exactly when it completed with exit
status zero and non-empty output, and `unknown` whenever the command did not
complete with exit status zero (nonzero exit, missing executable, or
timeout). -/
theorem git_state_classification (g : GitOutcome) :
    (git_state g = "clean" ∨ git_state g = "dirty" ∨ git_state g = "unknown") ∧
    (git_state g = "clean" ↔
       ∃ stdout stderr, g = GitOutcome.completed 0 stdout stderr ∧
         pyStrip (pyOrStr stdout stderr) = "") ∧
    (git_state g = "dirty" ↔
       ∃ stdout stderr, g = GitOutcome.completed 0 stdout stderr ∧
         pyStrip (pyOrStr stdout stderr) ≠ "") ∧
    ((∀ stdout stderr, g ≠ GitOutcome.completed 0 stdout stderr) →
       git_state g = "unknown") := by
  cases g with
  | completed rc stdout stderr =>
      by_cases hrc : rc = 0
      · subst hrc
        by_cases hout : pyStrip (pyOrStr stdout stderr) = ""
        · have hc : git_state (GitOutcome.completed 0 stdout stderr) = "clean" := by
            simp [git_state, run_command, hout]
          refine ⟨Or.inl hc, ⟨fun _ => ⟨stdout, stderr, rfl, hout⟩, fun _ => hc⟩,
                 ⟨?_, ?_⟩, ?_⟩
          · intro hd; rw [hc] at hd; exact absurd hd (by decide)
          · rintro ⟨o, e, heq, hne⟩
            injection heq with h1 h2 h3
            subst h2; subst h3
            exact absurd hout hne
          · intro hall; exact absurd rfl (hall stdout stderr)
        · have hd : git_state (GitOutcome.completed 0 stdout stderr) = "dirty" := by
            simp [git_state, run_command, hout]
          refine ⟨Or.inr (Or.inl hd), ⟨?_, ?_⟩,
                 ⟨fun _ => ⟨stdout, stderr, rfl, hout⟩, fun _ => hd⟩, ?_⟩
          · intro hcl; rw [hd] at hcl; exact absurd hcl (by decide)
          · rintro ⟨o, e, heq, hemp⟩
            injection heq with h1 h2 h3
            subst h2; subst h3
            exact absurd hemp hout
          · intro hall; exact absurd rfl (hall stdout stderr)
      · have hu : git_state (GitOutcome.completed rc stdout stderr) = "unknown" := by
          simp [git_state, run_command, hrc]
        refine ⟨Or.inr (Or.inr hu), ⟨?_, ?_⟩, ⟨?_, ?_⟩, fun _ => hu⟩
        · intro hcl; rw [hu] at hcl; exact absurd hcl (by decide)
        · rintro ⟨o, e, heq, -⟩; injection heq with h1 h2 h3; exact absurd h1 hrc
        · intro hd; rw [hu] at hd; exact absurd hd (by decide)
        · rintro ⟨o, e, heq, -⟩; injection heq with h1 h2 h3; exact absurd h1 hrc
  | oserror clsName detail =>
      refine ⟨Or.inr (Or.inr rfl), ⟨?_, ?_⟩, ⟨?_, ?_⟩, fun _ => rfl⟩
      · intro h; simp [git_state, run_command] at h
      · rintro ⟨o, e, heq, -⟩; exact GitOutcome.noConfusion heq
      · intro h; simp [git_state, run_command] at h
      · rintro ⟨o, e, heq, -⟩; exact GitOutcome.noConfusion heq
  | timeout =>
      refine ⟨Or.inr (Or.inr rfl), ⟨?_, ?_⟩, ⟨?_, ?_⟩, fun _ => rfl⟩
      · intro h; exact absurd h (by decide)
      · rintro ⟨o, e, heq, -⟩; exact GitOutcome.noConfusion heq
      · intro h; exact absurd h (by decide)
      · rintro ⟨o, e, heq, -⟩; exact GitOutcome.noConfusion heq

theorem git_state_classification_witness :
    git_state GitOutcome.timeout = "unknown" ∧
    git_state (GitOutcome.completed 0 "" "") = "clean" :=
  ⟨(git_state_classification GitOutcome.timeout).2.2.2
     (fun _ _ h => GitOutcome.noConfusion h),
   (git_state_classification (GitOutcome.completed 0 "" "")).2.1.mpr
     ⟨"", "", rfl, by decide⟩⟩
/-- Rewriting `env_status` as a function of the four presence bits. -/
theorem env_status_eq_of_bits (env : Env) :
    env_status env =
      env_status_of_bits (getenvTruthy env "LIVEKIT_URL") (getenvTruthy env "LIVEKIT_API_KEY")
        (getenvTruthy env "LIVEKIT_API_SECRET") (getenvTruthy env "GOOGLE_API_KEY") := rfl

/-- For any presence bits, each mandatory key appears exactly once, marked
either `set` or `missing`. -/
theorem env_status_of_bits_count :
    ∀ b1 b2 b3 b4 : Bool, ∀ k ∈ REQUIRED_ENV_KEYS,
      (env_status_of_bits b1 b2 b3 b4).count (k ++ "=set") +
        (env_status_of_bits b1 b2 b3 b4).count (k ++ "=missing") = 1 := by decide

/-- C7: the env-status report lists each of the four mandatory keys exactly
once, each marked `set` or `missing`; and any two environments agreeing on
the presence (truthiness) of each mandatory key produce the identical
env-status list — a key's literal value never influences or appears in the
report. -/
theorem env_status_presence_only (env1 env2 : Env)
    (h : ∀ k ∈ REQUIRED_ENV_KEYS, getenvTruthy env1 k = getenvTruthy env2 k) :
    env_status env1 = env_status env2 ∧
    (env_status env1).length = REQUIRED_ENV_KEYS.length ∧
    (∀ k ∈ REQUIRED_ENV_KEYS,
      (env_status env1).count (k ++ "=set") +
        (env_status env1).count (k ++ "=missing") = 1) := by
  refine ⟨?_, rfl, ?_⟩
  · rw [env_status_eq_of_bits env1, env_status_eq_of_bits env2,
        h "LIVEKIT_URL" (by decide), h "LIVEKIT_API_KEY" (by decide),
        h "LIVEKIT_API_SECRET" (by decide), h "GOOGLE_API_KEY" (by decide)]
  · rw [env_status_eq_of_bits env1]
    exact env_status_of_bits_count _ _ _ _

theorem env_status_presence_only_witness :
    env_status envA = env_status envB ∧
    (env_status envA).count ("GOOGLE_API_KEY" ++ "=set") +
      (env_status envA).count ("GOOGLE_API_KEY" ++ "=missing") = 1 :=
  ⟨(env_status_presence_only envA envB (by decide)).1,
   (env_status_presence_only envA envB (by decide)).2.2 "GOOGLE_API_KEY" (by decide)⟩

/-- C8: noise-cancellation selection returns the telephony strategy if and
only if the participant descriptor's transport kind is the SIP (telephony)
kind, the general strategy otherwise, and it is a pure function of the
descriptor's kind alone. -/
theorem noise_cancellation_selection (params : NoiseCancellationParams) :
    (select_noise_cancellation params = NoiseCancellationStrategy.bvcTelephony ↔
       params.participant.kind = ParticipantKind.sip) ∧
    (select_noise_cancellation params = NoiseCancellationStrategy.bvc ↔
       params.participant.kind ≠ ParticipantKind.sip) ∧
    (∀ q : NoiseCancellationParams,
       params.participant.kind = q.participant.kind →
       select_noise_cancellation params = select_noise_cancellation q) := by
  obtain ⟨⟨k⟩⟩ := params
  refine ⟨?_, ?_, ?_⟩
  · cases k <;> decide
  · cases k <;> decide
  · rintro ⟨⟨k2⟩⟩ h
    cases h
    rfl

theorem noise_cancellation_selection_witness :
    select_noise_cancellation ⟨⟨ParticipantKind.sip⟩⟩ =
      NoiseCancellationStrategy.bvcTelephony ∧
    select_noise_cancellation ⟨⟨ParticipantKind.standard⟩⟩ =
      NoiseCancellationStrategy.bvc :=
  ⟨(noise_cancellation_selection ⟨⟨ParticipantKind.sip⟩⟩).1.mpr rfl,
   (noise_cancellation_selection ⟨⟨ParticipantKind.standard⟩⟩).2.1.mpr (by decide)⟩

/-- Every run of `my_agent` completes either the full milestone sequence or
none of it. -/
theorem my_agent_trace_shape (w : World) :
    (my_agent w).1 = successTrace ∨ (my_agent w).1 = [] := by
  by_cases hg : getenvTruthy w.env "GOOGLE_API_KEY" = true
  · cases hb : build_project_context w with
    | error e => right; simp [my_agent, hg, hb]
    | ok s => left; simp [my_agent, hg, hb]
  · right; simp [my_agent, hg]

/-- C9: in a session whose mandatory configuration is entirely present, the
greeting milestone occurs in the run's event order only strictly after the
session-start milestone has completed: any position holding `greetingSent`
has `sessionStarted` somewhere before it. -/
theorem greeting_only_after_session_started (w : World)
    (_hconf : ∀ k ∈ REQUIRED_ENV_KEYS, getenvTruthy w.env k = true)
    (j : Nat) (hj : (my_agent w).1[j]? = some Event.greetingSent) :
    Event.sessionStarted ∈ (my_agent w).1.take j := by
  rcases my_agent_trace_shape w with h | h <;> rw [h] at hj ⊢
  · rcases j with _ | _ | _ | _ | n
    · exact absurd hj (by decide)
    · exact absurd hj (by decide)
    · exact absurd hj (by decide)
    · decide
    · simp [successTrace] at hj
  · simp at hj

theorem greeting_only_after_session_started_witness :
    (my_agent wGood).1[3]? = some Event.greetingSent ∧
    Event.sessionStarted ∈ (my_agent wGood).1.take 3 :=
  ⟨by decide, greeting_only_after_session_started wGood (by decide) 3 (by decide)⟩

/-- C10: a mandatory key bound to the empty string is treated as absent:
presence is decided by truthiness of the looked-up value, so the env-status
report marks the key `missing`, and an empty `GOOGLE_API_KEY` triggers the
fatal startup failure. -/
theorem empty_valued_key_treated_as_missing (w : World) (k : String)
    (hk : w.env k = some "") :
    getenvTruthy w.env k = false ∧
    (k ∈ REQUIRED_ENV_KEYS → (k ++ "=" ++ "missing") ∈ env_status w.env) ∧
    (k = "GOOGLE_API_KEY" →
      my_agent w = ([], some "GOOGLE_API_KEY is required for the Google Gemini LLM.")) := by
  have h1 : getenvTruthy w.env k = false := by
    unfold getenvTruthy
    rw [hk]
    rfl
  refine ⟨h1, ?_, ?_⟩
  · intro hmem
    unfold env_status
    refine List.mem_map.mpr ⟨k, hmem, ?_⟩
    simp [h1]
  · intro hgk
    subst hgk
    unfold my_agent
    rw [h1]
    rfl

theorem empty_valued_key_treated_as_missing_witness :
    getenvTruthy wEmpty.env "GOOGLE_API_KEY" = false ∧
    ("GOOGLE_API_KEY" ++ "=" ++ "missing") ∈ env_status wEmpty.env ∧
    my_agent wEmpty = ([], some "GOOGLE_API_KEY is required for the Google Gemini LLM.") :=
  ⟨(empty_valued_key_treated_as_missing wEmpty "GOOGLE_API_KEY" rfl).1,
   (empty_valued_key_treated_as_missing wEmpty "GOOGLE_API_KEY" rfl).2.1 (by decide),
   (empty_valued_key_treated_as_missing wEmpty "GOOGLE_API_KEY" rfl).2.2 rfl⟩

end Glosos
